import Mathlib

/-!
# Verification of the context preparation engine

Shallow embedding of `src/services/garmin/context_preparation.py`
(`ContextPreparationService` and its helpers) and proofs about it.

Modelling conventions:
* Calendar dates are integers counting days from an epoch that falls on a
  Monday, so `date.weekday()` is `d % 7` (Monday = 0) and the e.g. ISO-string
  comparison of `week_start` values coincides with integer comparison.
* Python floats are modelled as exact rationals (`ℚ`); `round(x, n)` is
  modelled as exact decimal round-half-to-even.
* The string-timestamp parsing of `_parse_activity_date` /
  `datetime.fromisoformat` is abstracted: a record carries the outcome of
  parsing its timestamp (`none` = missing/unparseable, which the Python code
  catches and skips).
* Loosely-typed numeric fields (`Any`) are modelled by `PyNum`:
  `absent` stands for a missing key, an explicit `None`, or any other falsy
  value (`""`, `{}`, ...); `num q` for an int/float with value `q`; and `bad`
  for a truthy value on which `float(...)` raises `ValueError`/`TypeError`.
* Exceptions that the Python code does NOT catch are modelled with
  `Except Unit`: `.error ()` is an exception escaping the service
  (in particular the `AttributeError` raised by calling `.get` on an
  explicitly-`null` nested block, which is not in any `except` list).
-/

/-- A loosely-typed numeric input field (Python `Any`). -/
inductive PyNum
  /-- Missing key, explicit `None`, or any other falsy value. -/
  | absent
  /-- An int/float with value `q` (truthy iff `q ≠ 0`). -/
  | num (q : ℚ)
  /-- A truthy value that `float(...)` cannot convert (raises, which
  `_safe_float` catches). -/
  | bad
deriving DecidableEq, Inhabited

/-- The nested `duration` block of a recovery entry's sleep data. -/
inductive DurBlock
  /-- Key missing: `sleep_info.get("duration", {})` yields `{}`. -/
  | absent
  /-- Key present but `None` (or any non-mapping): the subsequent
  `.get("total")` raises an uncaught `AttributeError`. -/
  | null
  /-- A mapping whose `total` field is `total`. -/
  | info (total : PyNum)
deriving DecidableEq, Inhabited

/-- The nested `sleep` block of a recovery entry. -/
inductive SleepBlock
  /-- Key missing: `entry.get("sleep", {})` yields `{}`. -/
  | absent
  /-- Key present but `None` (or any non-mapping): the subsequent
  `.get("resting_heart_rate")` raises an uncaught `AttributeError`. -/
  | null
  /-- A mapping with the given `resting_heart_rate` and `duration` fields. -/
  | info (resting_heart_rate : PyNum) (duration : DurBlock)
deriving DecidableEq, Inhabited

/-- The nested `summary` mapping of an activity record
(a missing summary behaves as the all-`absent` mapping). -/
structure Summary where
  distance : PyNum
  duration : PyNum
  elevation_gain : PyNum
  activity_training_load : PyNum
  average_hr : PyNum
  max_hr : PyNum
deriving DecidableEq, Inhabited

/-- An input activity record.  `start_date` holds the result of parsing its
`start_time` timestamp (see module docstring); `activity_type` is `none` when
the key is missing (the code then falls back to `"unknown"`). -/
structure Activity where
  activity_type : Option String
  start_date : Option Int
  summary : Summary
deriving DecidableEq, Inhabited

/-- An input recovery record (`recovery_indicators` element).  `date` holds
the result of `datetime.fromisoformat(entry.get("date", ""))`: `none` when
that raises (`ValueError`/`TypeError`, both caught). -/
structure RecoveryEntry where
  date : Option Int
  sleep : SleepBlock
deriving DecidableEq, Inhabited

/-- The `physiological_markers` input block (fields `none` when missing). -/
structure PhysiologicalMarkers where
  resting_heart_rate : Option ℚ
  vo2_max : Option ℚ
  hrv : Option ℚ
deriving DecidableEq, Inhabited

/-- The nested `acute_training_load` mapping of `training_status`. -/
structure AcuteTrainingLoad where
  acute_load : Option ℚ
  chronic_load : Option ℚ
  acwr : Option ℚ
deriving DecidableEq, Inhabited

/-- The `training_status` input block; `acute_training_load = none` means the
key is missing (the code substitutes `{}`). -/
structure TrainingStatus where
  acute_training_load : Option AcuteTrainingLoad
deriving DecidableEq, Inhabited

/-- The `daily_stats` input block. -/
structure DailyStats where
  average_stress_level : Option ℚ
  resting_heart_rate : Option ℚ
deriving DecidableEq, Inhabited

/-- The full input dataset (the five top-level keys of §6 of the spec). -/
structure GarminData where
  recent_activities : List Activity
  recovery_indicators : List RecoveryEntry
  physiological_markers : PhysiologicalMarkers
  training_status : TrainingStatus
  daily_stats : DailyStats
deriving DecidableEq, Inhabited

/-- The nested `training_load` group of the current-metrics output. -/
structure TrainingLoadMetrics where
  acute : Option ℚ
  chronic : Option ℚ
  acwr : Option ℚ
deriving DecidableEq, Inhabited

/-- The `current_metrics` output mapping of `_extract_current_metrics`. -/
structure CurrentMetrics where
  resting_heart_rate : Option ℚ
  vo2_max : Option ℚ
  hrv : Option ℚ
  training_load : TrainingLoadMetrics
  current_stress : Option ℚ
  current_rhr : Option ℚ
deriving DecidableEq, Inhabited

/-- The `WeeklyAggregate` dataclass.  `week_start`/`week_end` are day numbers
(the Python code stores their ISO strings, whose ordering agrees). -/
structure WeeklyAggregate where
  week_start : Int
  week_end : Int
  week_number : Nat
  total_activities : Nat
  total_distance_km : ℚ
  total_duration_hours : ℚ
  total_elevation_gain_m : ℚ
  activities_by_type : List (String × Nat)
  distance_by_type : List (String × ℚ)
  duration_by_type : List (String × ℚ)
  avg_heart_rate : Option ℚ
  max_heart_rate : Option Int
  total_training_load : Option ℚ
  longest_activity_distance_km : Option ℚ
  longest_activity_duration_hours : Option ℚ
  highest_intensity_activity : Option String
  avg_resting_hr : Option ℚ
  avg_sleep_hours : Option ℚ
deriving DecidableEq, Inhabited

/-- The `PreparedContext` dataclass (metadata flattened). -/
structure PreparedContext where
  recent_activities : List Activity
  weekly_trends : List WeeklyAggregate
  current_metrics : CurrentMetrics
  preparation_date : Int
  recent_window_days : Int
  trends_window_days : Int
deriving DecidableEq, Inhabited

/-- Embedding of `_parse_activity_date`: extract and parse the activity start date
(string parsing abstracted into the record, see module docstring). -/
def parse_activity_date (activity : Activity) : Option Int :=
  activity.start_date

/-- Embedding of `_get_week_start`: Monday of the week for a given date
(`activity_date - timedelta(days=activity_date.weekday())`). -/
def get_week_start (activity_date : Int) : Int :=
  activity_date - activity_date % 7

/-- Embedding of `_safe_float`: safely convert a loosely-typed value to a float,
falling back to `default` on `None` or a conversion error. -/
def safe_float (value : PyNum) (default : ℚ) : ℚ :=
  match value with
  | .num q => q
  | .absent => default
  | .bad => default

/-- Python `int(...)` truncation toward zero on a float value. -/
def rat_trunc (q : ℚ) : Int :=
  if 0 ≤ q then ⌊q⌋ else ⌈q⌉

/-- Embedding of `_safe_int`: safely convert a loosely-typed value to an int,
falling back to `default` on `None` or a conversion error. -/
def safe_int (value : PyNum) (default : Int) : Int :=
  match value with
  | .num q => rat_trunc q
  | .absent => default
  | .bad => default

/-- The pattern `sum(xs) / len(xs) if xs else None` — the average pattern used for heart
rates, resting heart rates and sleep hours. -/
def list_mean (l : List ℚ) : Option ℚ :=
  if l.isEmpty then none else some (l.sum / (l.length : ℚ))

/-- Decimal round-half-to-even to an integer (the rounding mode of Python's
builtin `round`, with floats modelled exactly). -/
def round_half_even (q : ℚ) : Int :=
  if q - ⌊q⌋ < 1 / 2 then ⌊q⌋
  else if 1 / 2 < q - ⌊q⌋ then ⌊q⌋ + 1
  else if ⌊q⌋ % 2 = 0 then ⌊q⌋ else ⌊q⌋ + 1

/-- Python `round(q, ndigits)`. -/
def py_round (q : ℚ) (ndigits : Nat) : ℚ :=
  (round_half_even (q * 10 ^ ndigits) : ℚ) / 10 ^ ndigits

/-- The `intensity.total_training_load` field of `WeeklyAggregate.to_dict`:
`round(self.total_training_load, 1) if self.total_training_load else None`
(`None` and `0.0` are both falsy). -/
def to_dict_total_training_load (agg : WeeklyAggregate) : Option ℚ :=
  match agg.total_training_load with
  | none => none
  | some x => if x ≠ 0 then some (py_round x 1) else none

/-- The partition loop of `prepare_agent_context` (lines 196-204): split the
activity list into the recent bucket and the historical bucket, dropping
unparseable and too-old records.  Appends preserve input order. -/
def partition_activities : List Activity → Int → Int → List Activity × List Activity
  | [], _, _ => ([], [])
  | activity :: rest, recent_cutoff, trends_cutoff =>
    let pr := partition_activities rest recent_cutoff trends_cutoff
    match parse_activity_date activity with
    | none => pr
    | some activity_date =>
      if activity_date > recent_cutoff then (activity :: pr.1, pr.2)
      else if activity_date > trends_cutoff then (pr.1, activity :: pr.2)
      else pr

/-- The grouping phase of `_aggregate_by_week` (lines 251-259): the
`defaultdict` entry `weeks[w]` is exactly the subsequence of activities whose
parsed date has Monday `w`. -/
def group_by_week (activities : List Activity) (w : Int) : List Activity :=
  activities.filter fun activity =>
    match parse_activity_date activity with
    | some activity_date => decide (get_week_start activity_date = w)
    | none => false

/-- Fuel-driven helper for the `while current_week < end_date` walk of
`_aggregate_by_week`; the fuel `(end_date - current).toNat` always suffices
because each step advances by 7 days. -/
def week_starts_aux : Nat → Int → Int → List Int
  | 0, _, _ => []
  | fuel + 1, current, end_date =>
    if current < end_date then current :: week_starts_aux fuel (current + 7) end_date
    else []

/-- The ordered list of week-start Mondays emitted by the
`while current_week < end_date` loop of `_aggregate_by_week`. -/
def week_starts (current end_date : Int) : List Int :=
  week_starts_aux (end_date - current).toNat current end_date

/-- The number of weeks the loop emits — a function of the cutoffs only. -/
def num_weeks (start_date end_date : Int) : Nat :=
  (week_starts (get_week_start start_date) end_date).length

/-- The accumulator state of the activity loop in `_create_weekly_aggregate`
(lines 299-315). -/
structure WeekAcc where
  total_distance : ℚ
  total_duration : ℚ
  total_elevation : ℚ
  total_training_load : ℚ
  activities_by_type : List (String × Nat)
  distance_by_type : List (String × ℚ)
  duration_by_type : List (String × ℚ)
  heart_rates : List ℚ
  max_hrs : List Int
  longest_distance : ℚ
  longest_duration : ℚ
  highest_intensity_type : Option String
  max_intensity_load : ℚ
deriving DecidableEq, Inhabited

/-- The initial accumulator values of `_create_weekly_aggregate`. -/
def init_week_acc : WeekAcc :=
  { total_distance := 0
    total_duration := 0
    total_elevation := 0
    total_training_load := 0
    activities_by_type := []
    distance_by_type := []
    duration_by_type := []
    heart_rates := []
    max_hrs := []
    longest_distance := 0
    longest_duration := 0
    highest_intensity_type := none
    max_intensity_load := 0 }

/-- A `defaultdict(int)` bump: `m[k] += 1` with insertion order preserved. -/
def bump_count (m : List (String × Nat)) (k : String) : List (String × Nat) :=
  if m.any (fun p => p.1 = k) then
    m.map fun p => if p.1 = k then (p.1, p.2 + 1) else p
  else m ++ [(k, 1)]

/-- A `defaultdict(float)` addition: `m[k] += v` with insertion order
preserved. -/
def add_amount (m : List (String × ℚ)) (k : String) (v : ℚ) : List (String × ℚ) :=
  if m.any (fun p => p.1 = k) then
    m.map fun p => if p.1 = k then (p.1, p.2 + v) else p
  else m ++ [(k, v)]

/-- One iteration of the `for activity in activities` loop of
`_create_weekly_aggregate` (lines 318-360). -/
def process_activity (acc : WeekAcc) (activity : Activity) : WeekAcc :=
  let activity_type := activity.activity_type.getD "unknown"
  let summary := activity.summary
  let distance_m := safe_float summary.distance 0
  let distance_km := if distance_m ≠ 0 then distance_m / 1000 else 0
  let duration_s := safe_float summary.duration 0
  let duration_h := if duration_s ≠ 0 then duration_s / 3600 else 0
  let elevation := safe_float summary.elevation_gain 0
  let training_load := safe_float summary.activity_training_load 0
  let avg_hr := safe_float summary.average_hr 0
  let max_hr := safe_int summary.max_hr 0
  { total_distance := acc.total_distance + distance_km
    total_duration := acc.total_duration + duration_h
    total_elevation := acc.total_elevation + elevation
    total_training_load := acc.total_training_load + training_load
    activities_by_type := bump_count acc.activities_by_type activity_type
    distance_by_type := add_amount acc.distance_by_type activity_type distance_km
    duration_by_type := add_amount acc.duration_by_type activity_type duration_h
    heart_rates := if avg_hr > 0 then acc.heart_rates ++ [avg_hr] else acc.heart_rates
    max_hrs := if max_hr > 0 then acc.max_hrs ++ [max_hr] else acc.max_hrs
    longest_distance :=
      if distance_km > acc.longest_distance then distance_km else acc.longest_distance
    longest_duration :=
      if duration_h > acc.longest_duration then duration_h else acc.longest_duration
    highest_intensity_type :=
      if training_load > acc.max_intensity_load then some activity_type
      else acc.highest_intensity_type
    max_intensity_load :=
      if training_load > acc.max_intensity_load then training_load
      else acc.max_intensity_load }

/-- The body of the `for entry in recovery_data` loop of
`_extract_weekly_recovery_metrics` (lines 404-420), i.e. one `try` block.
`ValueError`/`TypeError`/`KeyError` are caught (`continue`), keeping whatever
was already appended, and yield the accumulators reached so far; but the
`AttributeError` raised by `.get` on an explicitly-`null` `sleep` or
`duration` block is NOT in the except list and escapes as `.error ()`. -/
def entry_step (week_start week_end : Int) (entry : RecoveryEntry)
    (resting_hrs sleep_hours : List ℚ) : Except Unit (List ℚ × List ℚ) :=
  match entry.date with
  | none => .ok (resting_hrs, sleep_hours)
  | some entry_date =>
    if week_start ≤ entry_date ∧ entry_date ≤ week_end then
      match entry.sleep with
      | .null => .error ()
      | .absent => .ok (resting_hrs, sleep_hours)
      | .info rhr duration =>
        match rhr with
        | .bad => .ok (resting_hrs, sleep_hours)
        | _ =>
          let resting_hrs' :=
            match rhr with
            | .num q => if q ≠ 0 then resting_hrs ++ [q] else resting_hrs
            | _ => resting_hrs
          match duration with
          | .null => .error ()
          | .absent => .ok (resting_hrs', sleep_hours)
          | .info total =>
            match total with
            | .bad => .ok (resting_hrs', sleep_hours)
            | .num q =>
              .ok (resting_hrs', if q ≠ 0 then sleep_hours ++ [q] else sleep_hours)
            | .absent => .ok (resting_hrs', sleep_hours)
    else .ok (resting_hrs, sleep_hours)

/-- Characterisation of when one recovery entry raises an uncaught
`AttributeError`: its date is in the week and its `sleep` block is an
explicit `null`, or its `duration` block is an explicit `null` and the
resting-heart-rate field did not already raise a caught conversion error. -/
def entry_raises (week_start week_end : Int) (entry : RecoveryEntry) : Bool :=
  match entry.date with
  | none => false
  | some d =>
    if week_start ≤ d ∧ d ≤ week_end then
      match entry.sleep with
      | .null => true
      | .info .bad _ => false
      | .info _ .null => true
      | _ => false
    else false

/-- The `for entry in recovery_data` loop of `_extract_weekly_recovery_metrics`:
iterate `entry_step`, propagating an uncaught exception. -/
def recovery_loop (week_start week_end : Int) :
    List RecoveryEntry → List ℚ → List ℚ → Except Unit (List ℚ × List ℚ)
  | [], resting_hrs, sleep_hours => .ok (resting_hrs, sleep_hours)
  | entry :: rest, resting_hrs, sleep_hours =>
    match entry_step week_start week_end entry resting_hrs sleep_hours with
    | .error e => .error e
    | .ok (resting_hrs', sleep_hours') =>
      recovery_loop week_start week_end rest resting_hrs' sleep_hours'

/-- Embedding of `_extract_weekly_recovery_metrics`: average recovery metrics for a week,
or an escaping exception. -/
def extract_weekly_recovery_metrics (garmin_data : GarminData)
    (week_start week_end : Int) : Except Unit (Option ℚ × Option ℚ) :=
  match recovery_loop week_start week_end garmin_data.recovery_indicators [] [] with
  | .error e => .error e
  | .ok (resting_hrs, sleep_hours) =>
    .ok (list_mean resting_hrs, list_mean sleep_hours)

/-- Embedding of `_create_weekly_aggregate` (lines 289-390). -/
def create_weekly_aggregate (week_start : Int) (activities : List Activity)
    (garmin_data : GarminData) (week_number : Nat) : Except Unit WeeklyAggregate :=
  let week_end := week_start + 6
  let acc := activities.foldl process_activity init_week_acc
  let avg_hr := list_mean acc.heart_rates
  let max_hr := acc.max_hrs.max?
  match extract_weekly_recovery_metrics garmin_data week_start week_end with
  | .error e => .error e
  | .ok (avg_resting_hr, avg_sleep) =>
    .ok { week_start := week_start
          week_end := week_end
          week_number := week_number
          total_activities := activities.length
          total_distance_km := acc.total_distance
          total_duration_hours := acc.total_duration
          total_elevation_gain_m := acc.total_elevation
          activities_by_type := acc.activities_by_type
          distance_by_type := acc.distance_by_type
          duration_by_type := acc.duration_by_type
          avg_heart_rate := avg_hr
          max_heart_rate := max_hr
          total_training_load :=
            if acc.total_training_load > 0 then some acc.total_training_load else none
          longest_activity_distance_km :=
            if acc.longest_distance > 0 then some acc.longest_distance else none
          longest_activity_duration_hours :=
            if acc.longest_duration > 0 then some acc.longest_duration else none
          highest_intensity_activity := acc.highest_intensity_type
          avg_resting_hr := avg_resting_hr
          avg_sleep_hours := avg_sleep }

/-- The emit phase of `_aggregate_by_week` (lines 262-280): walk the weeks,
creating one aggregate per week with a 1-based running `week_number`;
an exception escaping a week aborts the whole walk. -/
def build_aggregates (garmin_data : GarminData) (weeks : Int → List Activity) :
    List Int → Nat → Except Unit (List WeeklyAggregate)
  | [], _ => .ok []
  | ws :: rest, week_number =>
    match create_weekly_aggregate ws (weeks ws) garmin_data week_number with
    | .error e => .error e
    | .ok agg =>
      match build_aggregates garmin_data weeks rest (week_number + 1) with
      | .error e => .error e
      | .ok ags => .ok (agg :: ags)

/-- Embedding of `_aggregate_by_week` (lines 231-287): group, walk the window, then
`aggregates.sort(key=lambda x: x.week_start)` (a stable sort, modelled by
insertion sort; ISO-string order on `week_start` equals date order). -/
def aggregate_by_week (activities : List Activity) (garmin_data : GarminData)
    (start_date end_date : Int) : Except Unit (List WeeklyAggregate) :=
  let weeks := group_by_week activities
  match build_aggregates garmin_data weeks
      (week_starts (get_week_start start_date) end_date) 1 with
  | .error e => .error e
  | .ok ags =>
    .ok (List.insertionSort (fun x y => x.week_start ≤ y.week_start) ags)

/-- Embedding of `_extract_current_metrics` (lines 427-444). -/
def extract_current_metrics (garmin_data : GarminData) : CurrentMetrics :=
  let physiological := garmin_data.physiological_markers
  let training_status := garmin_data.training_status
  let daily_stats := garmin_data.daily_stats
  let acute_block :=
    match training_status.acute_training_load with
    | some block => block
    | none => { acute_load := none, chronic_load := none, acwr := none }
  { resting_heart_rate := physiological.resting_heart_rate
    vo2_max := physiological.vo2_max
    hrv := physiological.hrv
    training_load :=
      { acute := acute_block.acute_load
        chronic := acute_block.chronic_load
        acwr := acute_block.acwr }
    current_stress := daily_stats.average_stress_level
    current_rhr := daily_stats.resting_heart_rate }

/-- Embedding of `prepare_agent_context` (lines 159-229). -/
def prepare_agent_context (garmin_data : GarminData) (analysis_date : Int)
    (recent_window_days trends_window_days : Int) : Except Unit PreparedContext :=
  let activities := garmin_data.recent_activities
  let recent_cutoff := analysis_date - recent_window_days
  let trends_cutoff := analysis_date - trends_window_days
  let split := partition_activities activities recent_cutoff trends_cutoff
  match aggregate_by_week split.2 garmin_data trends_cutoff recent_cutoff with
  | .error e => .error e
  | .ok weekly_trends =>
    .ok { recent_activities := split.1
          weekly_trends := weekly_trends
          current_metrics := extract_current_metrics garmin_data
          preparation_date := analysis_date
          recent_window_days := recent_window_days
          trends_window_days := trends_window_days }

/-! ## Claim-side characterisations (written from the spec's wording) -/

/-- A record with a parseable date strictly after the recent cutoff. -/
def is_recent (recent_cutoff : Int) (activity : Activity) : Bool :=
  match parse_activity_date activity with
  | some d => decide (d > recent_cutoff)
  | none => false

/-- A record with a parseable date in `(trends_cutoff, recent_cutoff]`. -/
def is_historical (recent_cutoff trends_cutoff : Int) (activity : Activity) : Bool :=
  match parse_activity_date activity with
  | some d => !decide (d > recent_cutoff) && decide (d > trends_cutoff)
  | none => false

/-- A record with a parseable date hitting the final `else` branch: neither
after the recent cutoff nor after the trends cutoff. -/
def is_discarded (recent_cutoff trends_cutoff : Int) (activity : Activity) : Bool :=
  match parse_activity_date activity with
  | some d => !decide (d > recent_cutoff) && !decide (d > trends_cutoff)
  | none => false

/-- The activity-type tag used throughout the aggregator. -/
def activity_tag (activity : Activity) : String :=
  activity.activity_type.getD "unknown"

/-- Coerced distance in kilometers of one activity. -/
def act_dist_km (activity : Activity) : ℚ :=
  safe_float activity.summary.distance 0 / 1000

/-- Coerced duration in hours of one activity. -/
def act_dur_h (activity : Activity) : ℚ :=
  safe_float activity.summary.duration 0 / 3600

/-- Coerced training load of one activity. -/
def act_load (activity : Activity) : ℚ :=
  safe_float activity.summary.activity_training_load 0

/-- Coerced average heart rate of one activity. -/
def act_avg_hr (activity : Activity) : ℚ :=
  safe_float activity.summary.average_hr 0

/-- The average-heart-rate values of the activities reporting a strictly
positive value, in iteration order. -/
def pos_hrs (activities : List Activity) : List ℚ :=
  (activities.map act_avg_hr).filter fun q => decide (0 < q)

/-- The resting-heart-rate values a recovery entry contributes to the week
`[week_start, week_end]` (both endpoints inclusive). -/
def entry_rhr_contrib (week_start week_end : Int) (entry : RecoveryEntry) : List ℚ :=
  match entry.date with
  | none => []
  | some d =>
    if week_start ≤ d ∧ d ≤ week_end then
      match entry.sleep with
      | .info (.num q) _ => if q ≠ 0 then [q] else []
      | _ => []
    else []

/-- The sleep-hours values a recovery entry contributes to the week
`[week_start, week_end]` (both endpoints inclusive); an entry whose
resting-heart-rate field raises on conversion contributes nothing. -/
def entry_sleep_contrib (week_start week_end : Int) (entry : RecoveryEntry) : List ℚ :=
  match entry.date with
  | none => []
  | some d =>
    if week_start ≤ d ∧ d ≤ week_end then
      match entry.sleep with
      | .info .bad _ => []
      | .info _ (.info (.num q)) => if q ≠ 0 then [q] else []
      | _ => []
    else []

/-- Every numeric resting-heart-rate and sleep-total value in the recovery
list is nonnegative. -/
def nonneg_recovery (entries : List RecoveryEntry) : Prop :=
  ∀ e ∈ entries,
    (∀ q : ℚ, (∃ d, e.sleep = .info (.num q) d) → 0 ≤ q) ∧
    (∀ q : ℚ, (∃ r, e.sleep = .info r (.info (.num q))) → 0 ≤ q)

/-- Decidable equality for exception-carrying results. -/
instance {ε α : Type} [DecidableEq ε] [DecidableEq α] : DecidableEq (Except ε α) := by
  intro x y
  cases x <;> cases y
  case error.error a b | ok.ok a b =>
    exact if h : a = b then .isTrue (by rw [h]) else .isFalse (by simp [h])
  all_goals exact .isFalse (by simp)

/-! ## Concrete inputs for witnesses and counterexamples -/

/-- A summary mapping with every field missing. -/
def empty_summary : Summary :=
  ⟨.absent, .absent, .absent, .absent, .absent, .absent⟩

/-- A dataset with the given recovery entries and everything else empty. -/
def gd_with_recovery (entries : List RecoveryEntry) : GarminData :=
  { recent_activities := []
    recovery_indicators := entries
    physiological_markers := ⟨none, none, none⟩
    training_status := ⟨none⟩
    daily_stats := ⟨none, none⟩ }

/-- The empty dataset. -/
def gd_empty : GarminData := gd_with_recovery []

/-- C1 data: recent (day 12), boundary (day 10 = recent cutoff), discarded
(day 2), unparseable; cutoffs 10 and 3. -/
def c1_recent_act : Activity := ⟨some "running", some 12, empty_summary⟩

def c1_boundary_act : Activity := ⟨some "running", some 10, empty_summary⟩

def c1_old_act : Activity := ⟨some "running", some 2, empty_summary⟩

def c1_bad_act : Activity := ⟨some "running", none, empty_summary⟩

def c1_acts : List Activity :=
  [c1_recent_act, c1_boundary_act, c1_old_act, c1_bad_act]

/-- C2 data: empty dataset over the window `trends_cutoff = 0`,
`recent_cutoff = 21` (three Mondays 0, 7, 14). -/
def c2_ags : List WeeklyAggregate :=
  match aggregate_by_week [] gd_empty 0 21 with
  | .ok ags => ags
  | .error _ => []

/-- C3 counterexample data: `recent_cutoff = 84` is a Monday (day numbers
divisible by 7 are Mondays) and the activity is dated exactly day 84, so it
lands in the historical bucket (`84 > 84` is false, `84 > 8` is true) while
the emitted weeks stop at Monday 77. -/
def c3_monday_act : Activity :=
  ⟨some "running", some 84, ⟨.num 20000, .num 5400, .absent, .num 100, .num 150, .absent⟩⟩

/-- C3 witness data: an activity on day 3 (its Monday is day 0) in the
one-week window `trends_cutoff = 0`, `recent_cutoff = 7`. -/
def c3w_act : Activity := ⟨some "running", some 3, empty_summary⟩

def c3w_ags : List WeeklyAggregate :=
  match aggregate_by_week [c3w_act] gd_empty 0 7 with
  | .ok ags => ags
  | .error _ => []

/-- C4 failing input: a recovery entry whose `sleep` key is explicitly
`null`, dated inside the trends window (day 10, week Monday 7 of the window
`trends_cutoff = 7`, `recent_cutoff = 21`). -/
def c4_data : GarminData := gd_with_recovery [⟨some 10, .null⟩]

/-- C5 data: a 10 km / 1 h run with average HR 140 and a 20 km / 1.5 h ride
with average HR 150, both in the week of Monday 0. -/
def c5_run : Activity :=
  ⟨some "running", some 1, ⟨.num 10000, .num 3600, .absent, .absent, .num 140, .absent⟩⟩

def c5_ride : Activity :=
  ⟨some "cycling", some 2, ⟨.num 20000, .num 5400, .absent, .absent, .num 150, .absent⟩⟩

def c5_acts : List Activity := [c5_run, c5_ride]

def c5_ags : List WeeklyAggregate :=
  match aggregate_by_week c5_acts gd_empty 0 7 with
  | .ok ags => ags
  | .error _ => []

def c5_agg : WeeklyAggregate :=
  match c5_ags with
  | agg :: _ => agg
  | [] => default

/-- C6 data: a week (Monday 0) whose two activities both report training load
0, and a week (Monday 7) with loads 40 and 45. -/
def c6_z1 : Activity :=
  ⟨some "running", some 1, ⟨.absent, .absent, .absent, .num 0, .absent, .absent⟩⟩

def c6_z2 : Activity :=
  ⟨some "running", some 2, ⟨.absent, .absent, .absent, .num 0, .absent, .absent⟩⟩

def c6_p1 : Activity :=
  ⟨some "running", some 8, ⟨.absent, .absent, .absent, .num 40, .absent, .absent⟩⟩

def c6_p2 : Activity :=
  ⟨some "cycling", some 9, ⟨.absent, .absent, .absent, .num 45, .absent, .absent⟩⟩

def c6_acts : List Activity := [c6_z1, c6_z2, c6_p1, c6_p2]

def c6_ags : List WeeklyAggregate :=
  match aggregate_by_week c6_acts gd_empty 0 14 with
  | .ok ags => ags
  | .error _ => []

def c6_agg0 : WeeklyAggregate :=
  match c6_ags with
  | agg :: _ => agg
  | [] => default

def c6_agg1 : WeeklyAggregate :=
  match c6_ags with
  | _ :: agg :: _ => agg
  | _ => default

/-- C7 counterexample data: a single activity of type `"running"` reporting
training load 0 — the unique highest load of its week. -/
def c7_zero_act : Activity :=
  ⟨some "running", some 1, ⟨.absent, .absent, .absent, .num 0, .absent, .absent⟩⟩

/-- C7 witness data: loads 50, 70, 70, 30 in one week; the first activity
attaining the maximum 70 is `c7w_b`. -/
def c7w_a : Activity :=
  ⟨some "rowing", some 1, ⟨.absent, .absent, .absent, .num 50, .absent, .absent⟩⟩

def c7w_b : Activity :=
  ⟨some "running", some 2, ⟨.absent, .absent, .absent, .num 70, .absent, .absent⟩⟩

def c7w_c : Activity :=
  ⟨some "cycling", some 3, ⟨.absent, .absent, .absent, .num 70, .absent, .absent⟩⟩

def c7w_d : Activity :=
  ⟨some "hiking", some 4, ⟨.absent, .absent, .absent, .num 30, .absent, .absent⟩⟩

def c7w_acts : List Activity := [c7w_a, c7w_b, c7w_c, c7w_d]

def c7w_ags : List WeeklyAggregate :=
  match aggregate_by_week c7w_acts gd_empty 0 7 with
  | .ok ags => ags
  | .error _ => []

def c7w_agg : WeeklyAggregate :=
  match c7w_ags with
  | agg :: _ => agg
  | [] => default

/-- C8 data: recovery entries dated exactly on the week start (day 0) and the
week end (day 6) of the single week of the window `0 ≤ w < 7`. -/
def c8_data : GarminData :=
  gd_with_recovery
    [⟨some 0, .info (.num 50) (.info (.num 7))⟩,
     ⟨some 6, .info (.num 54) (.info (.num 8))⟩]

def c8_ags : List WeeklyAggregate :=
  match aggregate_by_week [] c8_data 0 7 with
  | .ok ags => ags
  | .error _ => []

def c8_agg : WeeklyAggregate :=
  match c8_ags with
  | agg :: _ => agg
  | [] => default

/-- C9 data: some fields present, some missing. -/
def c9_data : GarminData :=
  { recent_activities := []
    recovery_indicators := []
    physiological_markers := ⟨some 52, none, some 65⟩
    training_status := ⟨some ⟨some 450, none, some (59 / 50)⟩⟩
    daily_stats := ⟨none, some 52⟩ }

/-- C10 counterexample data: a recovery entry reporting a negative resting
heart rate (-60), which is truthy and floats fine, so it is averaged. -/
def c10_neg_data : GarminData :=
  gd_with_recovery [⟨some 3, .info (.num (-60)) .absent⟩]

/-- C10 witness data: one fully-populated nonnegative entry. -/
def c10_pos_entries : List RecoveryEntry :=
  [⟨some 3, .info (.num 52) (.info (.num 8))⟩]

def c10_pos_data : GarminData := gd_with_recovery c10_pos_entries

/-! ## Helper lemmas -/

lemma mem_week_starts_aux :
    ∀ (n : Nat) (c e w : Int), (e - c).toNat ≤ n →
      (w ∈ week_starts_aux n c e ↔ c ≤ w ∧ w < e ∧ (w - c) % 7 = 0) := by
  intro n
  induction n with
  | zero =>
    intro c e w h
    simp only [week_starts_aux, List.not_mem_nil, false_iff]
    omega
  | succ n ih =>
    intro c e w h
    simp only [week_starts_aux]
    split
    · next hce =>
      rw [List.mem_cons, ih (c + 7) e w (by omega)]
      omega
    · next hce =>
      simp only [List.not_mem_nil, false_iff]
      omega

lemma mem_week_starts (c e w : Int) :
    w ∈ week_starts c e ↔ c ≤ w ∧ w < e ∧ (w - c) % 7 = 0 :=
  mem_week_starts_aux _ c e w le_rfl

lemma head_week_starts_aux :
    ∀ (n : Nat) (c e x : Int), (week_starts_aux n c e).head? = some x → x = c := by
  intro n c e x
  cases n with
  | zero => simp [week_starts_aux]
  | succ n =>
    simp only [week_starts_aux]
    split
    · intro h
      simpa using h.symm
    · simp

lemma chain'_week_starts_aux :
    ∀ (n : Nat) (c e : Int), List.Chain' (fun a b => b = a + 7) (week_starts_aux n c e) := by
  intro n
  induction n with
  | zero => intro c e; simp [week_starts_aux]
  | succ n ih =>
    intro c e
    simp only [week_starts_aux]
    split
    · refine List.chain'_cons'.mpr ⟨?_, ih (c + 7) e⟩
      intro y hy
      exact head_week_starts_aux n (c + 7) e y hy
    · simp

lemma chain'_week_starts (c e : Int) :
    List.Chain' (fun a b => b = a + 7) (week_starts c e) :=
  chain'_week_starts_aux _ c e

lemma pairwise_lt_week_starts (c e : Int) :
    List.Pairwise (fun a b : Int => a < b) (week_starts c e) := by
  have h := (chain'_week_starts c e).imp (fun hab => by omega :
    ∀ {a b : Int}, b = a + 7 → a < b)
  exact List.chain'_iff_pairwise.mp h

lemma partition_fst (acts : List Activity) (rc tc : Int) :
    (partition_activities acts rc tc).1 = acts.filter (is_recent rc) := by
  induction acts with
  | nil => rfl
  | cons a l ih =>
    simp only [partition_activities]
    cases hp : parse_activity_date a with
    | none => simpa [List.filter_cons, is_recent, hp] using ih
    | some d =>
      by_cases h1 : d > rc
      · simpa [List.filter_cons, is_recent, hp, h1] using ih
      · by_cases h2 : d > tc
        · simpa [List.filter_cons, is_recent, hp, h1, h2] using ih
        · simpa [List.filter_cons, is_recent, hp, h1, h2] using ih

lemma partition_snd (acts : List Activity) (rc tc : Int) :
    (partition_activities acts rc tc).2 = acts.filter (is_historical rc tc) := by
  induction acts with
  | nil => rfl
  | cons a l ih =>
    simp only [partition_activities]
    cases hp : parse_activity_date a with
    | none => simpa [List.filter_cons, is_historical, hp] using ih
    | some d =>
      by_cases h1 : d > rc
      · simpa [List.filter_cons, is_historical, hp, h1] using ih
      · by_cases h2 : d > tc
        · simpa [List.filter_cons, is_historical, hp, h1, h2] using ih
        · simpa [List.filter_cons, is_historical, hp, h1, h2] using ih

lemma bucket_lengths (acts : List Activity) (rc tc : Int) :
    (acts.filter (is_recent rc)).length + (acts.filter (is_historical rc tc)).length
      + (acts.filter (is_discarded rc tc)).length
    = (acts.filter fun a => (parse_activity_date a).isSome).length := by
  induction acts with
  | nil => rfl
  | cons a l ih =>
    cases hp : parse_activity_date a with
    | none =>
      simpa [List.filter_cons, is_recent, is_historical, is_discarded, hp] using ih
    | some d =>
      have e4 : (parse_activity_date a).isSome = true := by simp [hp]
      by_cases h1 : d > rc
      · have e1 : is_recent rc a = true := by simp [is_recent, hp, h1]
        have e2 : is_historical rc tc a = false := by simp [is_historical, hp, h1]
        have e3 : is_discarded rc tc a = false := by simp [is_discarded, hp, h1]
        simp [List.filter_cons, e1, e2, e3, e4]
        omega
      · by_cases h2 : d > tc
        · have e1 : is_recent rc a = false := by simp [is_recent, hp, h1]
          have e2 : is_historical rc tc a = true := by simp [is_historical, hp, h1, h2]
          have e3 : is_discarded rc tc a = false := by simp [is_discarded, hp, h2]
          simp [List.filter_cons, e1, e2, e3, e4]
          omega
        · have e1 : is_recent rc a = false := by simp [is_recent, hp, h1]
          have e2 : is_historical rc tc a = false := by simp [is_historical, hp, h1, h2]
          have e3 : is_discarded rc tc a = true := by simp [is_discarded, hp, h1, h2]
          simp [List.filter_cons, e1, e2, e3, e4]
          omega

/-- C1. For every activity record whose timestamp parses to a date `d`
(cutoffs `recent_cutoff = rc`, `trends_cutoff = tc`): if `d > rc` it goes to
the recent bucket unmodified and in input order; otherwise if `d > tc`
(including `d = rc`) it goes to the historical bucket; otherwise it is
discarded.  Exactly one of the three holds per parseable record, the three
buckets partition the parseable subset, and unparseable records are in no
bucket. -/
theorem c1_partition_trichotomy (acts : List Activity) (rc tc : Int) :
    partition_activities acts rc tc
      = (acts.filter (is_recent rc), acts.filter (is_historical rc tc))
    ∧ (∀ a ∈ acts, ∀ d : Int, parse_activity_date a = some d →
        ((is_recent rc a = true ↔ d > rc)
          ∧ (is_historical rc tc a = true ↔ (¬ d > rc ∧ d > tc))
          ∧ (is_discarded rc tc a = true ↔ (¬ d > rc ∧ ¬ d > tc))
          ∧ [is_recent rc a, is_historical rc tc a, is_discarded rc tc a].count true = 1))
    ∧ (∀ a : Activity, parse_activity_date a = none →
        a ∉ (partition_activities acts rc tc).1 ∧ a ∉ (partition_activities acts rc tc).2)
    ∧ (acts.filter (is_recent rc)).length + (acts.filter (is_historical rc tc)).length
        + (acts.filter (is_discarded rc tc)).length
      = (acts.filter fun a => (parse_activity_date a).isSome).length := by
  refine ⟨?_, ?_, ?_, bucket_lengths acts rc tc⟩
  · exact Prod.ext (partition_fst acts rc tc) (partition_snd acts rc tc)
  · intro a _ d hd
    refine ⟨by simp [is_recent, hd], by simp [is_historical, hd, and_comm],
      by simp [is_discarded, hd, and_comm], ?_⟩
    by_cases h1 : d > rc
    · have e1 : is_recent rc a = true := by simp [is_recent, hd, h1]
      have e2 : is_historical rc tc a = false := by simp [is_historical, hd, h1]
      have e3 : is_discarded rc tc a = false := by simp [is_discarded, hd, h1]
      rw [e1, e2, e3]
      decide
    · by_cases h2 : d > tc
      · have e1 : is_recent rc a = false := by simp [is_recent, hd, h1]
        have e2 : is_historical rc tc a = true := by simp [is_historical, hd, h1, h2]
        have e3 : is_discarded rc tc a = false := by simp [is_discarded, hd, h2]
        rw [e1, e2, e3]
        decide
      · have e1 : is_recent rc a = false := by simp [is_recent, hd, h1]
        have e2 : is_historical rc tc a = false := by simp [is_historical, hd, h1, h2]
        have e3 : is_discarded rc tc a = true := by simp [is_discarded, hd, h1, h2]
        rw [e1, e2, e3]
        decide
  · intro a hp
    rw [partition_fst acts rc tc, partition_snd acts rc tc]
    constructor <;>
      · intro hmem
        have := (List.mem_filter.mp hmem).2
        simp [is_recent, is_historical, hp] at this

/-- C1 witness: with cutoffs 10 and 3, the day-12 record is recent, the
day-10 record (exactly the recent cutoff) is historical, the day-2 record is
discarded, and the unparseable record is in no bucket. -/
theorem c1_witness :
    partition_activities c1_acts 10 3 = ([c1_recent_act], [c1_boundary_act])
    ∧ (is_historical 10 3 c1_boundary_act = true ↔ (¬ (10 : Int) > 10 ∧ (10 : Int) > 3))
    ∧ [is_recent 10 c1_boundary_act, is_historical 10 3 c1_boundary_act,
        is_discarded 10 3 c1_boundary_act].count true = 1
    ∧ c1_bad_act ∉ (partition_activities c1_acts 10 3).1
    ∧ c1_bad_act ∉ (partition_activities c1_acts 10 3).2 := by
  have h := c1_partition_trichotomy c1_acts 10 3
  have hb := h.2.1 c1_boundary_act (by decide) 10 rfl
  exact ⟨by decide, hb.2.1, hb.2.2.2, (h.2.2.1 c1_bad_act rfl).1, (h.2.2.1 c1_bad_act rfl).2⟩

lemma create_ok_basic {ws : Int} {acts : List Activity} {gd : GarminData} {n : Nat}
    {agg : WeeklyAggregate} (h : create_weekly_aggregate ws acts gd n = .ok agg) :
    agg.week_start = ws ∧ agg.week_end = ws + 6 ∧ agg.week_number = n
      ∧ agg.total_activities = acts.length
      ∧ extract_weekly_recovery_metrics gd ws (ws + 6)
          = .ok (agg.avg_resting_hr, agg.avg_sleep_hours) := by
  simp only [create_weekly_aggregate] at h
  split at h
  · exact absurd h (by simp)
  · next r s heq =>
    injection h with h
    subst h
    exact ⟨rfl, rfl, rfl, rfl, heq⟩

lemma build_ok_map {gd : GarminData} {weeks : Int → List Activity} :
    ∀ (l : List Int) (n : Nat) (ags : List WeeklyAggregate),
      build_aggregates gd weeks l n = .ok ags →
      ags.map (fun g => g.week_start) = l := by
  intro l
  induction l with
  | nil =>
    intro n ags h
    simp only [build_aggregates] at h
    injection h with h
    subst h
    rfl
  | cons ws rest ih =>
    intro n ags h
    simp only [build_aggregates] at h
    split at h
    · exact absurd h (by simp)
    · next agg heq1 =>
      split at h
      · exact absurd h (by simp)
      · next ags' heq2 =>
        injection h with h
        subst h
        simp only [List.map_cons, (create_ok_basic heq1).1, ih (n + 1) ags' heq2]

lemma build_ok_numbers {gd : GarminData} {weeks : Int → List Activity} :
    ∀ (l : List Int) (n : Nat) (ags : List WeeklyAggregate),
      build_aggregates gd weeks l n = .ok ags →
      ags.map (fun g => g.week_number) = List.range' n ags.length := by
  intro l
  induction l with
  | nil =>
    intro n ags h
    simp only [build_aggregates] at h
    injection h with h
    subst h
    rfl
  | cons ws rest ih =>
    intro n ags h
    simp only [build_aggregates] at h
    split at h
    · exact absurd h (by simp)
    · next agg heq1 =>
      split at h
      · exact absurd h (by simp)
      · next ags' heq2 =>
        injection h with h
        subst h
        simp only [List.map_cons, (create_ok_basic heq1).2.2.1, List.length_cons,
          List.range'_succ, ih (n + 1) ags' heq2]

lemma build_ok_mem {gd : GarminData} {weeks : Int → List Activity} :
    ∀ (l : List Int) (n : Nat) (ags : List WeeklyAggregate),
      build_aggregates gd weeks l n = .ok ags →
      ∀ agg ∈ ags, ∃ m, create_weekly_aggregate agg.week_start (weeks agg.week_start) gd m = .ok agg := by
  intro l
  induction l with
  | nil =>
    intro n ags h
    simp only [build_aggregates] at h
    injection h with h
    subst h
    simp
  | cons ws rest ih =>
    intro n ags h
    simp only [build_aggregates] at h
    split at h
    · exact absurd h (by simp)
    · next agg heq1 =>
      split at h
      · exact absurd h (by simp)
      · next ags' heq2 =>
        injection h with h
        subst h
        intro b hb
        rcases List.mem_cons.mp hb with hb | hb
        · subst hb
          exact ⟨n, by rw [(create_ok_basic heq1).1]; exact heq1⟩
        · exact ih (n + 1) ags' heq2 b hb

/-- Inverting `aggregate_by_week`: the final sort is the identity because the
walk already emits weeks in increasing order. -/
lemma aggregate_ok_inv {acts : List Activity} {gd : GarminData} {sd ed : Int}
    {ags : List WeeklyAggregate} (h : aggregate_by_week acts gd sd ed = .ok ags) :
    build_aggregates gd (group_by_week acts) (week_starts (get_week_start sd) ed) 1 = .ok ags := by
  simp only [aggregate_by_week] at h
  split at h
  · exact absurd h (by simp)
  · next l heq =>
    injection h with h
    have hmap := @build_ok_map gd (group_by_week acts) _ _ _ heq
    have hpw : List.Pairwise (fun x y : WeeklyAggregate => x.week_start ≤ y.week_start) l := by
      have hp := pairwise_lt_week_starts (get_week_start sd) ed
      rw [← hmap] at hp
      exact (List.pairwise_map.mp hp).imp (fun hab => le_of_lt hab)
    have hsorted : List.Sorted (fun x y : WeeklyAggregate => x.week_start ≤ y.week_start) l := hpw
    rw [hsorted.insertionSort_eq] at h
    rw [heq, h]

/-- C2. For every dataset and window, the emitted weekly sequence has
week-start dates that are exactly the consecutive Mondays `w` with
`Monday-on-or-before(trends_cutoff) ≤ w < recent_cutoff` (day numbers
divisible by 7 are Mondays), in strictly increasing order with no gaps and no
duplicates (consecutive week starts differ by exactly 7), each aggregate has
`week_end = week_start + 6` and `week_number` equal to its 1-based position,
and the number of weeks is `num_weeks`, a function of the cutoffs alone
(hence the same even for an empty dataset). -/
theorem c2_week_coverage (acts : List Activity) (gd : GarminData) (tc rc : Int)
    (ags : List WeeklyAggregate) (h : aggregate_by_week acts gd tc rc = .ok ags) :
    (∀ w : Int, w ∈ ags.map (fun g => g.week_start)
        ↔ (w % 7 = 0 ∧ get_week_start tc ≤ w ∧ w < rc))
    ∧ List.Chain' (fun x y => y.week_start = x.week_start + 7) ags
    ∧ (∀ i (hi : i < ags.length),
        (ags.get ⟨i, hi⟩).week_end = (ags.get ⟨i, hi⟩).week_start + 6
          ∧ (ags.get ⟨i, hi⟩).week_number = i + 1)
    ∧ ags.length = num_weeks tc rc := by
  have hb := aggregate_ok_inv h
  have hmap := build_ok_map _ _ _ hb
  have hnum := build_ok_numbers _ _ _ hb
  have hmem := build_ok_mem _ _ _ hb
  refine ⟨?_, ?_, ?_, ?_⟩
  · intro w
    rw [hmap, mem_week_starts]
    have hm : get_week_start tc % 7 = 0 := by unfold get_week_start; omega
    omega
  · have hc := chain'_week_starts (get_week_start tc) rc
    rw [← hmap] at hc
    exact (List.chain'_map _).mp hc
  · intro i hi
    constructor
    · obtain ⟨m, hc⟩ := hmem _ (ags.get_mem i hi)
      exact (create_ok_basic hc).2.1
    · have hlen1 : i < (ags.map (fun g => g.week_number)).length := by simpa using hi
      have hg := List.get_of_eq hnum ⟨i, hlen1⟩
      have hgl : (ags.map (fun g => g.week_number)).get ⟨i, hlen1⟩
          = (ags.get ⟨i, hi⟩).week_number := by
        simp
      have hgr : ∀ hh, (List.range' 1 ags.length).get ⟨i, hh⟩ = 1 + i := by
        intro hh
        simp
      rw [hgl, hgr] at hg
      omega
  · have hlen : ags.length = (week_starts (get_week_start tc) rc).length := by
      rw [← hmap]
      simp
    simpa [num_weeks] using hlen

/-- C2 witness: the empty dataset over `trends_cutoff = 0`,
`recent_cutoff = 21` yields exactly the three Mondays 0, 7, 14. -/
theorem c2_witness :
    aggregate_by_week [] gd_empty 0 21 = .ok c2_ags
    ∧ c2_ags.map (fun g => g.week_start) = [0, 7, 14]
    ∧ c2_ags.map (fun g => g.week_number) = [1, 2, 3]
    ∧ c2_ags.length = num_weeks 0 21
    ∧ ((14 : Int) ∈ c2_ags.map (fun g => g.week_start) ↔
        ((14 : Int) % 7 = 0 ∧ get_week_start 0 ≤ 14 ∧ (14 : Int) < 21)) := by
  have h : aggregate_by_week [] gd_empty 0 21 = .ok c2_ags := rfl
  have hc := c2_week_coverage [] gd_empty 0 21 c2_ags h
  exact ⟨h, by decide, by decide, hc.2.2.2, hc.1 14⟩

lemma if_ne_div (q c : ℚ) : (if q ≠ 0 then q / c else 0) = q / c := by
  split
  · rfl
  · next h =>
    rw [not_not] at h
    rw [h, zero_div]

lemma process_total_distance (acc : WeekAcc) (a : Activity) :
    (process_activity acc a).total_distance = acc.total_distance + act_dist_km a := by
  simp only [process_activity, act_dist_km, if_ne_div]

lemma process_total_duration (acc : WeekAcc) (a : Activity) :
    (process_activity acc a).total_duration = acc.total_duration + act_dur_h a := by
  simp only [process_activity, act_dur_h, if_ne_div]

lemma process_total_training_load (acc : WeekAcc) (a : Activity) :
    (process_activity acc a).total_training_load = acc.total_training_load + act_load a := by
  simp only [process_activity, act_load]

lemma process_heart_rates (acc : WeekAcc) (a : Activity) :
    (process_activity acc a).heart_rates
      = if 0 < act_avg_hr a then acc.heart_rates ++ [act_avg_hr a] else acc.heart_rates := by
  simp only [process_activity, act_avg_hr, gt_iff_lt]

lemma pos_hrs_cons (a : Activity) (l : List Activity) :
    pos_hrs (a :: l)
      = if 0 < act_avg_hr a then act_avg_hr a :: pos_hrs l else pos_hrs l := by
  simp only [pos_hrs, List.map_cons, List.filter_cons]
  split
  · next h =>
    rw [if_pos (by simpa using h)]
  · next h =>
    rw [if_neg (by simpa using h)]

lemma foldl_total_distance :
    ∀ (acts : List Activity) (acc : WeekAcc),
      (acts.foldl process_activity acc).total_distance
        = acc.total_distance + (acts.map act_dist_km).sum := by
  intro acts
  induction acts with
  | nil => intro acc; simp
  | cons a l ih =>
    intro acc
    rw [List.foldl_cons, ih, process_total_distance]
    simp [add_assoc]

lemma foldl_total_duration :
    ∀ (acts : List Activity) (acc : WeekAcc),
      (acts.foldl process_activity acc).total_duration
        = acc.total_duration + (acts.map act_dur_h).sum := by
  intro acts
  induction acts with
  | nil => intro acc; simp
  | cons a l ih =>
    intro acc
    rw [List.foldl_cons, ih, process_total_duration]
    simp [add_assoc]

lemma foldl_total_training_load :
    ∀ (acts : List Activity) (acc : WeekAcc),
      (acts.foldl process_activity acc).total_training_load
        = acc.total_training_load + (acts.map act_load).sum := by
  intro acts
  induction acts with
  | nil => intro acc; simp
  | cons a l ih =>
    intro acc
    rw [List.foldl_cons, ih, process_total_training_load]
    simp [add_assoc]

lemma foldl_heart_rates :
    ∀ (acts : List Activity) (acc : WeekAcc),
      (acts.foldl process_activity acc).heart_rates = acc.heart_rates ++ pos_hrs acts := by
  intro acts
  induction acts with
  | nil => intro acc; simp [pos_hrs]
  | cons a l ih =>
    intro acc
    rw [List.foldl_cons, ih, process_heart_rates, pos_hrs_cons]
    split
    · simp
    · rfl

lemma process_pair_le {acc : WeekAcc} {a : Activity} (h : act_load a ≤ acc.max_intensity_load) :
    (process_activity acc a).max_intensity_load = acc.max_intensity_load
    ∧ (process_activity acc a).highest_intensity_type = acc.highest_intensity_type := by
  have hng : ¬ safe_float a.summary.activity_training_load 0 > acc.max_intensity_load := by
    simp only [gt_iff_lt, not_lt]
    simpa [act_load] using h
  constructor <;> simp [process_activity, hng]

lemma process_pair_gt {acc : WeekAcc} {a : Activity} (h : acc.max_intensity_load < act_load a) :
    (process_activity acc a).max_intensity_load = act_load a
    ∧ (process_activity acc a).highest_intensity_type = some (activity_tag a) := by
  have hg : safe_float a.summary.activity_training_load 0 > acc.max_intensity_load := by
    simpa [act_load] using h
  constructor <;> simp [process_activity, hg, act_load, activity_tag]

lemma foldl_pair_le :
    ∀ (acts : List Activity) (acc : WeekAcc),
      (∀ b ∈ acts, act_load b ≤ acc.max_intensity_load) →
      (acts.foldl process_activity acc).max_intensity_load = acc.max_intensity_load
      ∧ (acts.foldl process_activity acc).highest_intensity_type
          = acc.highest_intensity_type := by
  intro acts
  induction acts with
  | nil => intro acc _; exact ⟨rfl, rfl⟩
  | cons a l ih =>
    intro acc h
    have hp := process_pair_le (h a (by simp))
    rw [List.foldl_cons]
    have h2 : ∀ b ∈ l, act_load b ≤ (process_activity acc a).max_intensity_load := by
      rw [hp.1]
      intro b hb
      exact h b (by simp [hb])
    have hrec := ih (process_activity acc a) h2
    exact ⟨hrec.1.trans hp.1, hrec.2.trans hp.2⟩

lemma foldl_max_lt :
    ∀ (acts : List Activity) (acc : WeekAcc) (c : ℚ),
      acc.max_intensity_load < c → (∀ b ∈ acts, act_load b < c) →
      (acts.foldl process_activity acc).max_intensity_load < c := by
  intro acts
  induction acts with
  | nil => intro acc c hacc _; exact hacc
  | cons a l ih =>
    intro acc c hacc hall
    rw [List.foldl_cons]
    refine ih (process_activity acc a) c ?_ (fun b hb => hall b (by simp [hb]))
    rcases le_or_lt (act_load a) acc.max_intensity_load with hle | hgt
    · rw [(process_pair_le hle).1]
      exact hacc
    · rw [(process_pair_gt hgt).1]
      exact hall a (by simp)

lemma foldl_intensity_split (l₁ : List Activity) (a : Activity) (l₂ : List Activity)
    (acc : WeekAcc) (h1 : acc.max_intensity_load < act_load a)
    (h2 : ∀ b ∈ l₁, act_load b < act_load a)
    (h3 : ∀ b ∈ l₂, act_load b ≤ act_load a) :
    ((l₁ ++ a :: l₂).foldl process_activity acc).highest_intensity_type
      = some (activity_tag a) := by
  rw [List.foldl_append, List.foldl_cons]
  have hm := foldl_max_lt l₁ acc (act_load a) h1 h2
  have hstep := process_pair_gt hm
  have hle : ∀ b ∈ l₂,
      act_load b ≤ (process_activity (l₁.foldl process_activity acc) a).max_intensity_load := by
    rw [hstep.1]
    exact h3
  rw [(foldl_pair_le l₂ _ hle).2, hstep.2]

lemma create_ok_values {ws : Int} {acts : List Activity} {gd : GarminData} {n : Nat}
    {agg : WeeklyAggregate} (h : create_weekly_aggregate ws acts gd n = .ok agg) :
    agg.total_distance_km = (acts.map act_dist_km).sum
    ∧ agg.total_duration_hours = (acts.map act_dur_h).sum
    ∧ agg.avg_heart_rate = list_mean (pos_hrs acts)
    ∧ agg.total_training_load
        = (if 0 < (acts.map act_load).sum then some ((acts.map act_load).sum) else none)
    ∧ agg.highest_intensity_activity
        = (acts.foldl process_activity init_week_acc).highest_intensity_type := by
  simp only [create_weekly_aggregate] at h
  split at h
  · exact absurd h (by simp)
  · next r s heq =>
    injection h with h
    subst h
    refine ⟨?_, ?_, ?_, ?_, rfl⟩
    · simpa [init_week_acc] using foldl_total_distance acts init_week_acc
    · simpa [init_week_acc] using foldl_total_duration acts init_week_acc
    · rw [foldl_heart_rates acts init_week_acc]
      rfl
    · rw [foldl_total_training_load acts init_week_acc]
      simp [init_week_acc]

lemma mem_group_by_week {acts : List Activity} {a : Activity} {w : Int} :
    a ∈ group_by_week acts w
      ↔ a ∈ acts ∧ ∃ d, parse_activity_date a = some d ∧ get_week_start d = w := by
  unfold group_by_week
  rw [List.mem_filter]
  cases hp : parse_activity_date a <;> simp [hp]

/-- C5. For every emitted week: `total_distance_km` is the sum of the
week's coerced distances divided by 1000, `total_duration_hours` the sum of
durations divided by 3600, and `avg_heart_rate` the arithmetic mean of the
average-heart-rate values of the week's activities reporting a strictly
positive value — and null, not 0, when no activity reports one. -/
theorem c5_weekly_sums (acts : List Activity) (gd : GarminData) (tc rc : Int)
    (ags : List WeeklyAggregate) (agg : WeeklyAggregate)
    (h : aggregate_by_week acts gd tc rc = .ok ags) (hm : agg ∈ ags) :
    agg.total_distance_km = ((group_by_week acts agg.week_start).map act_dist_km).sum
    ∧ agg.total_duration_hours = ((group_by_week acts agg.week_start).map act_dur_h).sum
    ∧ (pos_hrs (group_by_week acts agg.week_start) ≠ [] →
        agg.avg_heart_rate = some ((pos_hrs (group_by_week acts agg.week_start)).sum
          / ((pos_hrs (group_by_week acts agg.week_start)).length : ℚ)))
    ∧ (pos_hrs (group_by_week acts agg.week_start) = [] → agg.avg_heart_rate = none) := by
  obtain ⟨m, hc⟩ := build_ok_mem _ _ _ (aggregate_ok_inv h) agg hm
  have hv := create_ok_values hc
  refine ⟨hv.1, hv.2.1, ?_, ?_⟩ <;> intro hnil
  · rw [hv.2.2.1]
    simp [list_mean, List.isEmpty_iff, hnil]
  · rw [hv.2.2.1, hnil]
    rfl
lemma c5_group_eval : group_by_week c5_acts 0 = [c5_run, c5_ride] := by decide

lemma c5_dist_eval : (([c5_run, c5_ride] : List Activity).map act_dist_km).sum = 30 := by
  norm_num [act_dist_km, safe_float, c5_run, c5_ride]

lemma c5_dur_eval : (([c5_run, c5_ride] : List Activity).map act_dur_h).sum = 5 / 2 := by
  norm_num [act_dur_h, safe_float, c5_run, c5_ride]

lemma c5_poshrs_eval : pos_hrs [c5_run, c5_ride] = [140, 150] := by
  norm_num [pos_hrs, act_avg_hr, safe_float, c5_run, c5_ride, List.filter]

lemma c5_avg_eval :
    (([140, 150] : List ℚ).sum / ((([140, 150] : List ℚ).length : Nat) : ℚ)) = 145 := by
  norm_num

/-- C5 witness: a week with a 10 km and a 20 km activity totals 30 km and
2.5 h, and heart rates 140 and 150 average to 145. -/
theorem c5_witness :
    aggregate_by_week c5_acts gd_empty 0 7 = .ok c5_ags
    ∧ c5_agg ∈ c5_ags
    ∧ c5_agg.week_start = 0
    ∧ c5_agg.total_distance_km = 30
    ∧ c5_agg.total_duration_hours = 5 / 2
    ∧ c5_agg.avg_heart_rate = some 145 := by
  have h : aggregate_by_week c5_acts gd_empty 0 7 = .ok c5_ags := rfl
  have hm : c5_agg ∈ c5_ags := List.Mem.head _
  have hws : c5_agg.week_start = 0 := rfl
  have hc := c5_weekly_sums c5_acts gd_empty 0 7 c5_ags c5_agg h hm
  have hgrp : group_by_week c5_acts c5_agg.week_start = [c5_run, c5_ride] := by
    rw [hws]
    exact c5_group_eval
  refine ⟨h, hm, hws, ?_, ?_, ?_⟩
  · rw [hc.1, hgrp, c5_dist_eval]
  · rw [hc.2.1, hgrp, c5_dur_eval]
  · have hne : pos_hrs (group_by_week c5_acts c5_agg.week_start) ≠ [] := by
      rw [hgrp, c5_poshrs_eval]
      simp
    have hv := hc.2.2.1 hne
    rw [hgrp, c5_poshrs_eval] at hv
    rw [hv, c5_avg_eval]

/-- C6. For every emitted week, `total_training_load` is null iff the sum
of the week's coerced training loads is not strictly positive (an all-zero
week gives null), and a strictly positive sum is passed through as that
number; the serialized `intensity.total_training_load` is null under exactly
the same condition. -/
theorem c6_training_load_null_vs_zero (acts : List Activity) (gd : GarminData)
    (tc rc : Int) (ags : List WeeklyAggregate) (agg : WeeklyAggregate)
    (h : aggregate_by_week acts gd tc rc = .ok ags) (hm : agg ∈ ags) :
    (agg.total_training_load = none
      ↔ ¬ 0 < ((group_by_week acts agg.week_start).map act_load).sum)
    ∧ (0 < ((group_by_week acts agg.week_start).map act_load).sum →
        agg.total_training_load = some (((group_by_week acts agg.week_start).map act_load).sum))
    ∧ (to_dict_total_training_load agg = none
      ↔ ¬ 0 < ((group_by_week acts agg.week_start).map act_load).sum) := by
  obtain ⟨m, hc⟩ := build_ok_mem _ _ _ (aggregate_ok_inv h) agg hm
  have hv := (create_ok_values hc).2.2.2.1
  refine ⟨?_, ?_, ?_⟩
  · rw [hv]
    by_cases hS : 0 < ((group_by_week acts agg.week_start).map act_load).sum
    · simp [hS]
    · simp [hS]
  · intro hS
    rw [hv, if_pos hS]
  · unfold to_dict_total_training_load
    rw [hv]
    by_cases hS : 0 < ((group_by_week acts agg.week_start).map act_load).sum
    · rw [if_pos hS]
      simp [ne_of_gt hS, hS]
    · rw [if_neg hS]
      simp [hS]

lemma c6_group0_eval : group_by_week c6_acts 0 = [c6_z1, c6_z2] := by decide

lemma c6_group7_eval : group_by_week c6_acts 7 = [c6_p1, c6_p2] := by decide

lemma c6_load0_eval : (([c6_z1, c6_z2] : List Activity).map act_load).sum = 0 := by
  norm_num [act_load, safe_float, c6_z1, c6_z2]

lemma c6_load7_eval : (([c6_p1, c6_p2] : List Activity).map act_load).sum = 85 := by
  norm_num [act_load, safe_float, c6_p1, c6_p2]

/-- C6 witness: the all-zero week (Monday 0) yields null both in the
aggregate and in its serialization, while the week with loads 40 and 45
(Monday 7) yields 85. -/
theorem c6_witness :
    aggregate_by_week c6_acts gd_empty 0 14 = .ok c6_ags
    ∧ c6_agg0 ∈ c6_ags ∧ c6_agg1 ∈ c6_ags
    ∧ c6_agg0.total_training_load = none
    ∧ to_dict_total_training_load c6_agg0 = none
    ∧ c6_agg1.total_training_load = some 85 := by
  have h : aggregate_by_week c6_acts gd_empty 0 14 = .ok c6_ags := rfl
  have hm0 : c6_agg0 ∈ c6_ags := List.Mem.head _
  have hm1 : c6_agg1 ∈ c6_ags := List.Mem.tail _ (List.Mem.head _)
  have hws0 : c6_agg0.week_start = 0 := rfl
  have hws1 : c6_agg1.week_start = 7 := rfl
  have hc0 := c6_training_load_null_vs_zero c6_acts gd_empty 0 14 c6_ags c6_agg0 h hm0
  have hc1 := c6_training_load_null_vs_zero c6_acts gd_empty 0 14 c6_ags c6_agg1 h hm1
  have hs0 : ¬ 0 < ((group_by_week c6_acts c6_agg0.week_start).map act_load).sum := by
    rw [hws0, c6_group0_eval, c6_load0_eval]
    simp
  have hs1 : 0 < ((group_by_week c6_acts c6_agg1.week_start).map act_load).sum := by
    rw [hws1, c6_group7_eval, c6_load7_eval]
    norm_num
  refine ⟨h, hm0, hm1, hc0.1.mpr hs0, hc0.2.2.mpr hs0, ?_⟩
  rw [hc1.2.1 hs1, hws1, c6_group7_eval, c6_load7_eval]

/-- C7 counterexample: a week whose single activity (type `"running"`)
reports training load 0 — so that activity owns the single highest
training-load value of the week — yet `highest_intensity_type` is null, not
`"running"`: the accumulator starts at 0 with a strict comparison, so a
maximum that is not strictly positive never registers. -/
theorem c7_counterexample :
    group_by_week [c7_zero_act] 0 = [c7_zero_act]
    ∧ activity_tag c7_zero_act = "running"
    ∧ act_load c7_zero_act = 0
    ∧ (∀ b ∈ group_by_week [c7_zero_act] 0, act_load b ≤ act_load c7_zero_act)
    ∧ (aggregate_by_week [c7_zero_act] gd_empty 0 7).map
        (fun l => l.map fun g => g.highest_intensity_activity) = .ok [none]
    ∧ ¬ (aggregate_by_week [c7_zero_act] gd_empty 0 7).map
          (fun l => l.map fun g => g.highest_intensity_activity)
        = .ok [some (activity_tag c7_zero_act)] := by
  refine ⟨by decide, by decide, by decide, by decide, by decide, by decide⟩

/-- C7 (amended). For every emitted week, `highest_intensity_type` is the
activity-type tag of the first activity (in iteration order) attaining the
single highest *strictly positive* per-activity training load, ties keeping
the first encountered; it is null when no activity of the week has a strictly
positive coerced training load (in particular when the week is empty). -/
theorem c7_highest_intensity (acts : List Activity) (gd : GarminData)
    (tc rc : Int) (ags : List WeeklyAggregate) (agg : WeeklyAggregate)
    (h : aggregate_by_week acts gd tc rc = .ok ags) (hm : agg ∈ ags) :
    ((∀ b ∈ group_by_week acts agg.week_start, act_load b ≤ 0) →
        agg.highest_intensity_activity = none)
    ∧ (∀ (l₁ : List Activity) (a : Activity) (l₂ : List Activity),
        group_by_week acts agg.week_start = l₁ ++ a :: l₂ →
        0 < act_load a →
        (∀ b ∈ l₂, act_load b ≤ act_load a) →
        (∀ b ∈ l₁, act_load b < act_load a) →
        agg.highest_intensity_activity = some (activity_tag a)) := by
  obtain ⟨m, hc⟩ := build_ok_mem _ _ _ (aggregate_ok_inv h) agg hm
  have hv := (create_ok_values hc).2.2.2.2
  constructor
  · intro hall
    rw [hv]
    have : ∀ b ∈ group_by_week acts agg.week_start,
        act_load b ≤ init_week_acc.max_intensity_load := by
      simpa [init_week_acc] using hall
    rw [(foldl_pair_le _ _ this).2]
    rfl
  · intro l₁ a l₂ hsplit hpos hle hlt
    rw [hv, hsplit]
    refine foldl_intensity_split l₁ a l₂ init_week_acc ?_ hlt hle
    simpa [init_week_acc] using hpos

/-- C7 witness: loads 50, 70, 70, 30 — the first activity attaining the
maximum 70 (of type `"running"`) wins the tie against the later 70. -/
theorem c7_witness :
    aggregate_by_week c7w_acts gd_empty 0 7 = .ok c7w_ags
    ∧ c7w_agg ∈ c7w_ags
    ∧ group_by_week c7w_acts c7w_agg.week_start = [c7w_a] ++ c7w_b :: [c7w_c, c7w_d]
    ∧ c7w_agg.highest_intensity_activity = some "running" := by
  have h : aggregate_by_week c7w_acts gd_empty 0 7 = .ok c7w_ags := rfl
  have hm : c7w_agg ∈ c7w_ags := List.Mem.head _
  have hws : c7w_agg.week_start = 0 := rfl
  have hsplit : group_by_week c7w_acts c7w_agg.week_start
      = [c7w_a] ++ c7w_b :: [c7w_c, c7w_d] := by
    rw [hws]
    decide
  have hc := c7_highest_intensity c7w_acts gd_empty 0 7 c7w_ags c7w_agg h hm
  exact ⟨h, hm, hsplit,
    hc.2 [c7w_a] c7w_b [c7w_c, c7w_d] hsplit (by decide) (by decide) (by decide)⟩

/-- C3 counterexample: with `trends_cutoff = 8` and `recent_cutoff = 84`
(a Monday: `84 % 7 = 0`), the activity dated exactly day 84 is put in the
historical bucket by the partition, yet the emitted weeks stop at Monday 77,
so the activity is counted in no emitted weekly aggregate: the total
activity count over all 11 emitted aggregates is 0. -/
theorem c3_counterexample :
    partition_activities [c3_monday_act] 84 8 = ([], [c3_monday_act])
    ∧ (84 : Int) % 7 = 0
    ∧ get_week_start 84 = 84
    ∧ (aggregate_by_week [c3_monday_act] gd_empty 8 84).map
        (fun l => (l.map fun g => g.total_activities).sum) = .ok 0
    ∧ (aggregate_by_week [c3_monday_act] gd_empty 8 84).map List.length = .ok 11 := by
  refine ⟨by decide, by decide, by decide, by decide, by decide⟩

/-- C3 (amended). Every activity of the historical bucket
(`trends_cutoff < d`, `¬ d > recent_cutoff`) whose week-start Monday lies
strictly before `recent_cutoff` is grouped into exactly one week — the Monday
on or before its date — that week is emitted exactly once, and the emitted
aggregate for it counts exactly the activities of that group.  (The amendment
excludes the boundary case `d = recent_cutoff` with `recent_cutoff` itself a
Monday, where the code drops the activity from every aggregate, see the
counterexample.) -/
theorem c3_historical_coverage (hist : List Activity) (gd : GarminData) (tc rc : Int)
    (ags : List WeeklyAggregate) (a : Activity) (d : Int)
    (h : aggregate_by_week hist gd tc rc = .ok ags)
    (ha : a ∈ hist) (hd : parse_activity_date a = some d)
    (h1 : d > tc) (h2 : ¬ d > rc) (h3 : get_week_start d < rc) :
    a ∈ group_by_week hist (get_week_start d)
    ∧ (∀ w : Int, a ∈ group_by_week hist w → w = get_week_start d)
    ∧ (ags.map (fun g => g.week_start)).count (get_week_start d) = 1
    ∧ (∀ agg ∈ ags, agg.week_start = get_week_start d →
        agg.total_activities = (group_by_week hist (get_week_start d)).length) := by
  have hb := aggregate_ok_inv h
  have hmap := build_ok_map _ _ _ hb
  refine ⟨?_, ?_, ?_, ?_⟩
  · exact mem_group_by_week.mpr ⟨ha, d, hd, rfl⟩
  · intro w hw
    obtain ⟨-, d2, hd2, hw2⟩ := mem_group_by_week.mp hw
    rw [hd] at hd2
    injection hd2 with hd2
    rw [hd2]
    exact hw2.symm
  · have hmem : get_week_start d ∈ week_starts (get_week_start tc) rc := by
      rw [mem_week_starts]
      unfold get_week_start at h3 ⊢
      omega
    have hnd : (week_starts (get_week_start tc) rc).Nodup :=
      (pairwise_lt_week_starts _ _).imp fun hab => ne_of_lt hab
    rw [hmap]
    exact List.nodup_iff_count_eq_one.mp hnd _ hmem
  · intro agg hmagg hws
    obtain ⟨m, hcr⟩ := build_ok_mem _ _ _ hb agg hmagg
    have hta := (create_ok_basic hcr).2.2.2.1
    rw [hws] at hta
    exact hta

/-- C3 witness: an activity on day 3 in the one-week window
`trends_cutoff = 0 < d ≤ recent_cutoff = 7` is grouped into (exactly) the
week of Monday 0, which is emitted once and counts it. -/
theorem c3_witness :
    aggregate_by_week [c3w_act] gd_empty 0 7 = .ok c3w_ags
    ∧ c3w_act ∈ group_by_week [c3w_act] (get_week_start 3)
    ∧ (c3w_ags.map (fun g => g.week_start)).count (get_week_start 3) = 1
    ∧ (∀ agg ∈ c3w_ags, agg.week_start = get_week_start 3 →
        agg.total_activities = (group_by_week [c3w_act] (get_week_start 3)).length) := by
  have h : aggregate_by_week [c3w_act] gd_empty 0 7 = .ok c3w_ags := rfl
  have hc := c3_historical_coverage [c3w_act] gd_empty 0 7 c3w_ags c3w_act 3 h
    (List.Mem.head _) rfl (by decide) (by decide) (by decide)
  exact ⟨h, hc.1, hc.2.2.1, hc.2.2.2⟩

lemma entry_step_eq (ws we : Int) (e : RecoveryEntry) (accR accS : List ℚ) :
    entry_step ws we e accR accS
      = if entry_raises ws we e then .error ()
        else .ok (accR ++ entry_rhr_contrib ws we e, accS ++ entry_sleep_contrib ws we e) := by
  obtain ⟨d, sleep⟩ := e
  cases d with
  | none => simp [entry_step, entry_raises, entry_rhr_contrib, entry_sleep_contrib]
  | some dd =>
    by_cases hr : ws ≤ dd ∧ dd ≤ we
    · cases sleep with
      | null => simp [entry_step, entry_raises, hr]
      | absent =>
        simp [entry_step, entry_raises, entry_rhr_contrib, entry_sleep_contrib, hr]
      | info rhr dur =>
        cases rhr with
        | bad =>
          simp [entry_step, entry_raises, entry_rhr_contrib, entry_sleep_contrib, hr]
        | absent =>
          cases dur with
          | null => simp [entry_step, entry_raises, hr]
          | absent =>
            simp [entry_step, entry_raises, entry_rhr_contrib, entry_sleep_contrib, hr]
          | info total =>
            cases total <;>
              simp [entry_step, entry_raises, entry_rhr_contrib, entry_sleep_contrib, hr] <;>
              split <;> simp
        | num q =>
          cases dur with
          | null => simp [entry_step, entry_raises, hr]
          | absent =>
            simp [entry_step, entry_raises, entry_rhr_contrib, entry_sleep_contrib, hr] <;>
              split <;> simp
          | info total =>
            cases total <;>
              simp [entry_step, entry_raises, entry_rhr_contrib, entry_sleep_contrib, hr] <;>
              split <;> (try split) <;> simp
    · simp [entry_step, entry_raises, entry_rhr_contrib, entry_sleep_contrib, hr]

lemma recovery_loop_ok :
    ∀ (entries : List RecoveryEntry) (ws we : Int) (accR accS rs ss : List ℚ),
      recovery_loop ws we entries accR accS = .ok (rs, ss) →
      rs = accR ++ entries.flatMap (entry_rhr_contrib ws we)
      ∧ ss = accS ++ entries.flatMap (entry_sleep_contrib ws we) := by
  intro entries
  induction entries with
  | nil =>
    intro ws we accR accS rs ss h
    simp only [recovery_loop, Except.ok.injEq, Prod.mk.injEq] at h
    obtain ⟨h1, h2⟩ := h
    subst h1
    subst h2
    simp
  | cons e rest ih =>
    intro ws we accR accS rs ss h
    cases hstep : entry_step ws we e accR accS with
    | error err =>
      simp only [recovery_loop, hstep] at h
      exact absurd h (by simp)
    | ok p =>
      obtain ⟨r', s'⟩ := p
      simp only [recovery_loop, hstep] at h
      have hrec := ih ws we r' s' rs ss h
      have hstep2 := entry_step_eq ws we e accR accS
      rw [hstep] at hstep2
      by_cases hrs : entry_raises ws we e
      · rw [if_pos hrs] at hstep2
        exact absurd hstep2 (by simp)
      · rw [if_neg hrs] at hstep2
        simp only [Except.ok.injEq, Prod.mk.injEq] at hstep2
        obtain ⟨h1, h2⟩ := hstep2
        subst h1
        subst h2
        rw [hrec.1, hrec.2]
        simp [List.append_assoc]

lemma extract_ok_mean {gd : GarminData} {ws we : Int} {r s : Option ℚ}
    (h : extract_weekly_recovery_metrics gd ws we = .ok (r, s)) :
    r = list_mean (gd.recovery_indicators.flatMap (entry_rhr_contrib ws we))
    ∧ s = list_mean (gd.recovery_indicators.flatMap (entry_sleep_contrib ws we)) := by
  unfold extract_weekly_recovery_metrics at h
  split at h
  · exact absurd h (by simp)
  · next rs ss heq =>
    simp only [Except.ok.injEq, Prod.mk.injEq] at h
    obtain ⟨h1, h2⟩ := h
    have hloop := recovery_loop_ok gd.recovery_indicators ws we [] [] rs ss heq
    rw [← h1, ← h2, hloop.1, hloop.2]
    simp

lemma entry_step_zero_rhr (ws we : Int) (d : Option Int) (dur : DurBlock)
    (accR accS : List ℚ) :
    entry_step ws we ⟨d, .info (.num 0) dur⟩ accR accS
      = entry_step ws we ⟨d, .info .absent dur⟩ accR accS := by
  cases d with
  | none => rfl
  | some dd =>
    by_cases hr : ws ≤ dd ∧ dd ≤ we
    · cases dur <;> simp [entry_step, hr]
    · simp [entry_step, hr]

lemma entry_step_zero_sleep (ws we : Int) (d : Option Int) (r : PyNum)
    (accR accS : List ℚ) :
    entry_step ws we ⟨d, .info r (.info (.num 0))⟩ accR accS
      = entry_step ws we ⟨d, .info r .absent⟩ accR accS := by
  cases d with
  | none => rfl
  | some dd =>
    by_cases hr : ws ≤ dd ∧ dd ≤ we
    · cases r <;> simp [entry_step, hr]
    · simp [entry_step, hr]

lemma recovery_loop_congr {ws we : Int} {e e' : RecoveryEntry}
    (hstep : ∀ accR accS, entry_step ws we e accR accS = entry_step ws we e' accR accS) :
    ∀ (l₁ l₂ : List RecoveryEntry) (accR accS : List ℚ),
      recovery_loop ws we (l₁ ++ e :: l₂) accR accS
        = recovery_loop ws we (l₁ ++ e' :: l₂) accR accS := by
  intro l₁
  induction l₁ with
  | nil =>
    intro l₂ accR accS
    simp only [List.nil_append, recovery_loop, hstep]
  | cons x rest ih =>
    intro l₂ accR accS
    simp only [List.cons_append, recovery_loop]
    cases hx : entry_step ws we x accR accS with
    | error err => rfl
    | ok p =>
      obtain ⟨r', s'⟩ := p
      exact ih l₂ r' s'

lemma mem_entry_rhr_contrib {ws we : Int} {x : ℚ} {e : RecoveryEntry}
    (h : x ∈ entry_rhr_contrib ws we e) :
    x ≠ 0 ∧ ∃ dur, e.sleep = .info (.num x) dur := by
  obtain ⟨d, sleep⟩ := e
  cases d with
  | none => simp [entry_rhr_contrib] at h
  | some dd =>
    simp only [entry_rhr_contrib] at h
    by_cases hr : ws ≤ dd ∧ dd ≤ we
    · rw [if_pos hr] at h
      cases sleep with
      | null => simp at h
      | absent => simp at h
      | info rhr dur =>
        cases rhr with
        | bad => simp at h
        | absent => simp at h
        | num q =>
          dsimp only at h
          by_cases hq : q ≠ 0
          · rw [if_pos hq] at h
            rw [List.mem_singleton] at h
            subst h
            exact ⟨hq, dur, rfl⟩
          · rw [if_neg hq] at h
            simp at h
    · rw [if_neg hr] at h
      simp at h

lemma mem_entry_sleep_contrib {ws we : Int} {x : ℚ} {e : RecoveryEntry}
    (h : x ∈ entry_sleep_contrib ws we e) :
    x ≠ 0 ∧ ∃ r, e.sleep = .info r (.info (.num x)) := by
  obtain ⟨d, sleep⟩ := e
  cases d with
  | none => simp [entry_sleep_contrib] at h
  | some dd =>
    simp only [entry_sleep_contrib] at h
    by_cases hr : ws ≤ dd ∧ dd ≤ we
    · rw [if_pos hr] at h
      cases sleep with
      | null => simp at h
      | absent => simp at h
      | info rhr dur =>
        cases rhr with
        | bad => simp at h
        | absent =>
          cases dur with
          | null => simp at h
          | absent => simp at h
          | info total =>
            cases total with
            | bad => simp at h
            | absent => simp at h
            | num q =>
              dsimp only at h
              by_cases hq : q ≠ 0
              · rw [if_pos hq] at h
                rw [List.mem_singleton] at h
                subst h
                exact ⟨hq, .absent, rfl⟩
              · rw [if_neg hq] at h
                simp at h
        | num q0 =>
          cases dur with
          | null => simp at h
          | absent => simp at h
          | info total =>
            cases total with
            | bad => simp at h
            | absent => simp at h
            | num q =>
              dsimp only at h
              by_cases hq : q ≠ 0
              · rw [if_pos hq] at h
                rw [List.mem_singleton] at h
                subst h
                exact ⟨hq, .num q0, rfl⟩
              · rw [if_neg hq] at h
                simp at h
    · rw [if_neg hr] at h
      simp at h

lemma list_mean_pos {l : List ℚ} (hpos : ∀ x ∈ l, 0 < x) :
    ∀ m, list_mean l = some m → 0 < m := by
  intro m hm
  unfold list_mean at hm
  split at hm
  · exact absurd hm (by simp)
  · next hne =>
    injection hm with hm
    have hnil : l ≠ [] := by
      intro hcontra
      rw [hcontra] at hne
      simp at hne
    have hsum : 0 < l.sum := List.sum_pos l hpos hnil
    have hlen : 0 < (l.length : ℚ) := by
      have := List.length_pos.mpr hnil
      exact_mod_cast this
    rw [← hm]
    exact div_pos hsum hlen

/-- C8. For every emitted week, `avg_resting_hr` and `avg_sleep_hours`
are the means of exactly the values contributed by recovery entries whose
parsed date lies in `[week_start, week_end]` with both endpoints inclusive
(an entry dated exactly `week_start`, and one dated exactly `week_end`, with
a nonzero numeric resting heart rate both contribute), and each average is
null when no qualifying entries contribute. -/
theorem c8_recovery_join (acts : List Activity) (gd : GarminData) (tc rc : Int)
    (ags : List WeeklyAggregate) (agg : WeeklyAggregate)
    (h : aggregate_by_week acts gd tc rc = .ok ags) (hm : agg ∈ ags) :
    agg.week_end = agg.week_start + 6
    ∧ agg.avg_resting_hr
        = list_mean (gd.recovery_indicators.flatMap
            (entry_rhr_contrib agg.week_start agg.week_end))
    ∧ agg.avg_sleep_hours
        = list_mean (gd.recovery_indicators.flatMap
            (entry_sleep_contrib agg.week_start agg.week_end))
    ∧ (∀ (q : ℚ) (dur : DurBlock), q ≠ 0 →
        entry_rhr_contrib agg.week_start agg.week_end
            ⟨some agg.week_start, .info (.num q) dur⟩ = [q]
        ∧ entry_rhr_contrib agg.week_start agg.week_end
            ⟨some agg.week_end, .info (.num q) dur⟩ = [q])
    ∧ (gd.recovery_indicators.flatMap (entry_rhr_contrib agg.week_start agg.week_end) = []
        → agg.avg_resting_hr = none)
    ∧ (gd.recovery_indicators.flatMap (entry_sleep_contrib agg.week_start agg.week_end) = []
        → agg.avg_sleep_hours = none) := by
  obtain ⟨m, hc⟩ := build_ok_mem _ _ _ (aggregate_ok_inv h) agg hm
  have hb := create_ok_basic hc
  have hwe : agg.week_end = agg.week_start + 6 := hb.2.1
  have hex := hb.2.2.2.2
  rw [← hwe] at hex
  have hmean := extract_ok_mean hex
  refine ⟨hwe, hmean.1, hmean.2, ?_, ?_, ?_⟩
  · intro q dur hq
    have hc1 : agg.week_start ≤ agg.week_start ∧ agg.week_start ≤ agg.week_end := by omega
    have hc2 : agg.week_start ≤ agg.week_end ∧ agg.week_end ≤ agg.week_end := by omega
    constructor
    · simp only [entry_rhr_contrib, if_pos hc1]
      rw [if_pos hq]
    · simp only [entry_rhr_contrib, if_pos hc2]
      rw [if_pos hq]
  · intro hnil
    rw [hmean.1, hnil]
    rfl
  · intro hnil
    rw [hmean.2, hnil]
    rfl

lemma c8_rhr_eval :
    list_mean (c8_data.recovery_indicators.flatMap (entry_rhr_contrib 0 6)) = some 52 := by
  norm_num [c8_data, gd_with_recovery, entry_rhr_contrib, list_mean]

lemma c8_sleep_eval :
    list_mean (c8_data.recovery_indicators.flatMap (entry_sleep_contrib 0 6))
      = some (15 / 2) := by
  norm_num [c8_data, gd_with_recovery, entry_sleep_contrib, list_mean]

/-- C8 witness: one recovery entry dated exactly the week start (day 0) and
one dated exactly the week end (day 6) are both included: resting heart
rates 50 and 54 average to 52 and sleep totals 7 and 8 to 7.5. -/
theorem c8_witness :
    aggregate_by_week [] c8_data 0 7 = .ok c8_ags
    ∧ c8_agg ∈ c8_ags
    ∧ c8_agg.week_start = 0
    ∧ c8_agg.week_end = 6
    ∧ c8_agg.avg_resting_hr = some 52
    ∧ c8_agg.avg_sleep_hours = some (15 / 2) := by
  have h : aggregate_by_week [] c8_data 0 7 = .ok c8_ags := rfl
  have hm : c8_agg ∈ c8_ags := List.Mem.head _
  have hws : c8_agg.week_start = 0 := rfl
  have hwe : c8_agg.week_end = 6 := rfl
  have hc := c8_recovery_join [] c8_data 0 7 c8_ags c8_agg h hm
  refine ⟨h, hm, hws, hwe, ?_, ?_⟩
  · rw [hc.2.1, hws, hwe, c8_rhr_eval]
  · rw [hc.2.2.1, hws, hwe, c8_sleep_eval]

/-- C4 (code bug). A recovery entry whose `sleep` key is explicitly
`null`, dated inside the trends window, makes `prepare_agent_context` raise
an uncaught `AttributeError` (`NoneType` has no attribute `get`; only
`ValueError`/`TypeError`/`KeyError` are caught), instead of being skipped:
with the same entry's `sleep` removed the call returns normally. -/
theorem c4_sleep_null_attribute_error :
    prepare_agent_context c4_data 28 7 21 = .error ()
    ∧ (prepare_agent_context (gd_with_recovery [⟨some 10, .absent⟩]) 28 7 21).toOption.isSome
        = true := by
  exact ⟨rfl, rfl⟩

/-- C9. Every field of the current-metrics snapshot whose source value is
absent from the input blocks is null in the output (never a default of
zero), and every present field is copied through unchanged — including the
three values of the nested `acute_training_load` block, which are all null
when that block itself is missing. -/
theorem c9_current_metrics_passthrough (gd : GarminData) :
    ((gd.physiological_markers.resting_heart_rate = none →
        (extract_current_metrics gd).resting_heart_rate = none)
      ∧ (∀ v, gd.physiological_markers.resting_heart_rate = some v →
          (extract_current_metrics gd).resting_heart_rate = some v))
    ∧ ((gd.physiological_markers.vo2_max = none →
        (extract_current_metrics gd).vo2_max = none)
      ∧ (∀ v, gd.physiological_markers.vo2_max = some v →
          (extract_current_metrics gd).vo2_max = some v))
    ∧ ((gd.physiological_markers.hrv = none →
        (extract_current_metrics gd).hrv = none)
      ∧ (∀ v, gd.physiological_markers.hrv = some v →
          (extract_current_metrics gd).hrv = some v))
    ∧ ((gd.daily_stats.average_stress_level = none →
        (extract_current_metrics gd).current_stress = none)
      ∧ (∀ v, gd.daily_stats.average_stress_level = some v →
          (extract_current_metrics gd).current_stress = some v))
    ∧ ((gd.daily_stats.resting_heart_rate = none →
        (extract_current_metrics gd).current_rhr = none)
      ∧ (∀ v, gd.daily_stats.resting_heart_rate = some v →
          (extract_current_metrics gd).current_rhr = some v))
    ∧ (gd.training_status.acute_training_load = none →
        (extract_current_metrics gd).training_load = ⟨none, none, none⟩)
    ∧ (∀ blk, gd.training_status.acute_training_load = some blk →
        (extract_current_metrics gd).training_load
          = ⟨blk.acute_load, blk.chronic_load, blk.acwr⟩) := by
  refine ⟨⟨?_, ?_⟩, ⟨?_, ?_⟩, ⟨?_, ?_⟩, ⟨?_, ?_⟩, ⟨?_, ?_⟩, ?_, ?_⟩ <;>
    first
      | (intro hv; simp [extract_current_metrics, hv])
      | (intro v hv; simp [extract_current_metrics, hv])

/-- C9 witness: in `c9_data` the present fields (resting HR 52, HRV 65,
acute load 450, ACWR 1.18, daily RHR 52) are copied through and the missing
fields (VO2max, chronic load, stress) are null. -/
theorem c9_witness :
    (extract_current_metrics c9_data).resting_heart_rate = some 52
    ∧ (extract_current_metrics c9_data).vo2_max = none
    ∧ (extract_current_metrics c9_data).hrv = some 65
    ∧ (extract_current_metrics c9_data).current_stress = none
    ∧ (extract_current_metrics c9_data).current_rhr = some 52
    ∧ (extract_current_metrics c9_data).training_load
        = ⟨some 450, none, some (59 / 50)⟩ := by
  have hc := c9_current_metrics_passthrough c9_data
  exact ⟨hc.1.2 52 rfl, hc.2.1.1 rfl, hc.2.2.1.2 65 rfl, hc.2.2.2.1.1 rfl,
    hc.2.2.2.2.1.2 52 rfl, hc.2.2.2.2.2.2 ⟨some 450, none, some (59 / 50)⟩ rfl⟩

/-- C10 counterexample: a recovery entry reporting a negative resting heart
rate (-60) is truthy, converts fine, and is averaged — so the claim's
"every non-null `avg_resting_hr` is strictly positive" is false:
the output average is -60. -/
theorem c10_counterexample :
    extract_weekly_recovery_metrics c10_neg_data 0 6 = .ok (some (-60), none)
    ∧ ¬ (0 : ℚ) < -60 := by
  constructor
  · have h1 : recovery_loop 0 6 c10_neg_data.recovery_indicators [] [] = .ok ([-60], []) := rfl
    unfold extract_weekly_recovery_metrics
    rw [h1]
    norm_num [list_mean]
  · norm_num

/-- C10 (amended). In the weekly recovery join, a resting-heart-rate or
sleep-total value that is present but equal to 0 is treated exactly as if
the sub-field were missing (replacing it by an absent field changes
nothing), and — provided every numeric resting-heart-rate and sleep-total
value in the input is nonnegative — every non-null `avg_resting_hr` and
`avg_sleep_hours` is strictly positive.  (Without the nonnegativity proviso
the positivity claim is false, see the counterexample.) -/
theorem c10_zero_as_missing_and_positivity :
    (∀ (gd gd' : GarminData) (ws we : Int) (l₁ l₂ : List RecoveryEntry)
        (d : Option Int) (dur : DurBlock),
        gd.recovery_indicators = l₁ ++ ⟨d, .info (.num 0) dur⟩ :: l₂ →
        gd'.recovery_indicators = l₁ ++ ⟨d, .info .absent dur⟩ :: l₂ →
        extract_weekly_recovery_metrics gd ws we
          = extract_weekly_recovery_metrics gd' ws we)
    ∧ (∀ (gd gd' : GarminData) (ws we : Int) (l₁ l₂ : List RecoveryEntry)
        (d : Option Int) (r : PyNum),
        gd.recovery_indicators = l₁ ++ ⟨d, .info r (.info (.num 0))⟩ :: l₂ →
        gd'.recovery_indicators = l₁ ++ ⟨d, .info r .absent⟩ :: l₂ →
        extract_weekly_recovery_metrics gd ws we
          = extract_weekly_recovery_metrics gd' ws we)
    ∧ (∀ (gd : GarminData) (ws we : Int) (r s : Option ℚ),
        nonneg_recovery gd.recovery_indicators →
        extract_weekly_recovery_metrics gd ws we = .ok (r, s) →
        (∀ x, r = some x → 0 < x) ∧ (∀ x, s = some x → 0 < x)) := by
  refine ⟨?_, ?_, ?_⟩
  · intro gd gd' ws we l₁ l₂ d dur hg hg'
    unfold extract_weekly_recovery_metrics
    rw [hg, hg',
      recovery_loop_congr (fun accR accS => entry_step_zero_rhr ws we d dur accR accS) l₁ l₂]
  · intro gd gd' ws we l₁ l₂ d r hg hg'
    unfold extract_weekly_recovery_metrics
    rw [hg, hg',
      recovery_loop_congr (fun accR accS => entry_step_zero_sleep ws we d r accR accS) l₁ l₂]
  · intro gd ws we r s hn hx
    have hmean := extract_ok_mean hx
    constructor
    · intro x hrx
      refine list_mean_pos ?_ x (hrx ▸ hmean.1.symm)
      intro y hy
      obtain ⟨e, he, hye⟩ := List.mem_flatMap.mp hy
      obtain ⟨hne, dur, hsleep⟩ := mem_entry_rhr_contrib hye
      have h0 : 0 ≤ y := (hn e he).1 y ⟨dur, hsleep⟩
      exact lt_of_le_of_ne h0 (Ne.symm hne)
    · intro x hsx
      refine list_mean_pos ?_ x (hsx ▸ hmean.2.symm)
      intro y hy
      obtain ⟨e, he, hye⟩ := List.mem_flatMap.mp hy
      obtain ⟨hne, rr, hsleep⟩ := mem_entry_sleep_contrib hye
      have h0 : 0 ≤ y := (hn e he).2 y ⟨rr, hsleep⟩
      exact lt_of_le_of_ne h0 (Ne.symm hne)

/-- C10 witness: a nonnegative fully-populated entry (resting HR 52, sleep
total 8) gives strictly positive non-null averages. -/
theorem c10_witness :
    nonneg_recovery c10_pos_entries
    ∧ extract_weekly_recovery_metrics c10_pos_data 0 6 = .ok (some 52, some 8)
    ∧ (0 : ℚ) < 52 ∧ (0 : ℚ) < 8 := by
  have hn : nonneg_recovery c10_pos_entries := by
    intro e he
    simp only [c10_pos_entries, List.mem_singleton] at he
    subst he
    constructor
    · rintro q ⟨dr, hq⟩
      injection hq with h1 h2
      injection h1 with h1
      rw [← h1]
      norm_num
    · rintro q ⟨rr, hq⟩
      injection hq with h1 h2
      injection h2 with h2
      injection h2 with h2
      rw [← h2]
      norm_num
  have hx : extract_weekly_recovery_metrics c10_pos_data 0 6 = .ok (some 52, some 8) := by
    have h1 : recovery_loop 0 6 c10_pos_data.recovery_indicators [] [] = .ok ([52], [8]) := rfl
    unfold extract_weekly_recovery_metrics
    rw [h1]
    norm_num [list_mean]
  have hc := c10_zero_as_missing_and_positivity.2.2 c10_pos_data 0 6 (some 52) (some 8) hn hx
  exact ⟨hn, hx, hc.1 52 rfl, hc.2 8 rfl⟩
